import Mathlib

/-!
Shallow embedding of the idempotent registration and stake reconciliation engine
of the allora-offchain-node repository (src/lib/repo_tx_registration.go).

The ledger client (queries and transaction submission) is an external collaborator;
it is modelled as an oracle of fixed responses, one per call site, in the order the
engine performs the calls.  Each engine function returns the boolean the Go function
returns together with the trace of ledger interactions it performed, so that claims
about which reads and writes happen (and with which arguments) can be stated.
Amounts (balances, fees, stakes) are cosmossdk arbitrary-precision integers,
modelled as Lean `Int`.
-/

namespace AlloraOffchain

/-- Result of a successful transaction submission (`SendDataWithRetry`). -/
structure TxResult where
  TxHash : String
deriving DecidableEq, Repr

/-- Chain-wide economic parameters returned by `GetParams`. -/
structure Params where
  RegistrationFee : Int
deriving DecidableEq, Repr

/-- Worker desired state: `WorkerConfig` (only the fields the engine reads). -/
structure WorkerConfig where
  TopicId : Nat
deriving DecidableEq, Repr

/-- Reputer desired state: `ReputerConfig` (only the fields the engine reads).
`MinStake` is an `int64` in the source, converted with `cosmossdk_io_math.NewInt`. -/
structure ReputerConfig where
  TopicId : Nat
  MinStake : Int
deriving DecidableEq, Repr

/-- The chain sub-configuration of the node; the engine reads `node.Chain.Address`. -/
structure ChainConfig where
  Address : String
deriving DecidableEq, Repr

/-- The wallet sub-configuration of the node; the engine reads `node.Wallet.Address`. -/
structure WalletConfig where
  Address : String
deriving DecidableEq, Repr

/-- The shared node object carrying the two address fields used by the engine. -/
structure NodeConfig where
  Chain : ChainConfig
  Wallet : WalletConfig
deriving DecidableEq, Repr

/-- Modelled from the spec: the node-setup code that populates `NodeConfig` is not in
src/ (only its consumers are).  The spec's data model has a single immutable
"Actor Identity: an address uniquely identifying the node on the ledger", and both the
Register and the AddStake messages are described as "signed by identity"; so setup
assigns that one identity address to both `Chain.Address` and `Wallet.Address`. -/
def NodeConfig.ofIdentity (identity : String) : NodeConfig :=
  { Chain := { Address := identity }, Wallet := { Address := identity } }

instance exceptDecEq {ε α : Type} [DecidableEq ε] [DecidableEq α] :
    DecidableEq (Except ε α) := fun a b =>
  match a, b with
  | .error x, .error y => decidable_of_iff (x = y) (by simp)
  | .error _, .ok _ => isFalse (by simp)
  | .ok _, .error _ => isFalse (by simp)
  | .ok x, .ok y => decidable_of_iff (x = y) (by simp)

/-- One ledger interaction performed by the engine, with its outcome.
`Except Unit` models Go's `(value, err)` pairs: `.error ()` is a non-nil error. -/
inductive Event where
  | readIsWorkerRegistered (topicId : Nat) (res : Except Unit Bool)
  | readIsReputerRegistered (topicId : Nat) (res : Except Unit Bool)
  | readParams (res : Except Unit Params)
  | readBalance (res : Except Unit Int)
  | readStake (topicId : Nat) (address : String) (res : Except Unit Int)
  | submitRegister (sender : String) (topicId : Nat) (owner : String)
      (isReputer : Bool) (res : Except Unit TxResult)
  | submitAddStake (sender : String) (amount : Int) (topicId : Nat)
      (res : Except Unit TxResult)
deriving DecidableEq, Repr

/-- Whether an event is a ledger mutation (a transaction submission). -/
def Event.isWrite : Event → Bool
  | .submitRegister _ _ _ _ _ => true
  | .submitAddStake _ _ _ _ => true
  | _ => false

/-- The write (transaction-submitting) events of a trace. -/
def writeEvents (t : List Event) : List Event :=
  t.filter Event.isWrite

/-- Whether an event is a Register submission. -/
def Event.isRegisterSubmit : Event → Bool
  | .submitRegister _ _ _ _ _ => true
  | _ => false

/-- The Register-submission events of a trace. -/
def registerSubmits (t : List Event) : List Event :=
  t.filter Event.isRegisterSubmit

/-- The amount carried by an AddStake submission, if the event is one. -/
def Event.addStakeAmount : Event → Option Int
  | .submitAddStake _ amount _ _ => some amount
  | _ => none

/-- The amounts of all AddStake submissions in a trace, in order. -/
def addStakeAmounts (t : List Event) : List Int :=
  t.filterMap Event.addStakeAmount

/-- All actor addresses mentioned by an event (senders, owners, queried addresses). -/
def Event.addresses : Event → List String
  | .readStake _ address _ => [address]
  | .submitRegister sender _ owner _ _ => [sender, owner]
  | .submitAddStake sender _ _ _ => [sender]
  | _ => []

/-- Whether an event is a ledger read that returned an error. -/
def Event.isFailedRead : Event → Bool
  | .readIsWorkerRegistered _ (.error _) => true
  | .readIsReputerRegistered _ (.error _) => true
  | .readParams (.error _) => true
  | .readBalance (.error _) => true
  | .readStake _ _ (.error _) => true
  | _ => false

/-- Whether some ledger read in the trace failed. -/
def hasFailedRead (t : List Event) : Bool :=
  t.any Event.isFailedRead

/-- Whether an event is a balance read or a chain-params read. -/
def Event.isBalanceOrParamsRead : Event → Bool
  | .readBalance _ => true
  | .readParams _ => true
  | _ => false

/-- Whether an event is a stake read. -/
def Event.isStakeRead : Event → Bool
  | .readStake _ _ _ => true
  | _ => false

/-- Whether an event is a worker registration-status read. -/
def Event.isWorkerRegRead : Event → Bool
  | .readIsWorkerRegistered _ _ => true
  | _ => false

/-- Whether an event is a reputer registration-status read. -/
def Event.isReputerRegRead : Event → Bool
  | .readIsReputerRegistered _ _ => true
  | _ => false

/-- The balance-read and chain-params-read events of a trace. -/
def balanceOrParamsReads (t : List Event) : List Event :=
  t.filter Event.isBalanceOrParamsRead

/-- The stake-read events of a trace. -/
def stakeReads (t : List Event) : List Event :=
  t.filter Event.isStakeRead

/-- The worker registration-status reads of a trace. -/
def workerRegReads (t : List Event) : List Event :=
  t.filter Event.isWorkerRegRead

/-- The reputer registration-status reads of a trace. -/
def reputerRegReads (t : List Event) : List Event :=
  t.filter Event.isReputerRegRead

/-- Oracle of ledger responses for one `RegisterWorkerIdempotently` call, one field
per call site in program order.  Having two separate registration-status responses
models a ledger whose state may change between the two reads. -/
structure WorkerOracle where
  isWorkerRegistered1 : Except Unit Bool
  getParams : Except Unit Params
  getBalance : Except Unit Int
  sendRegister : Except Unit TxResult
  isWorkerRegistered2 : Except Unit Bool
deriving DecidableEq, Repr

/-- Oracle of ledger responses for one `RegisterAndStakeReputerIdempotently` call,
one field per call site in program order. -/
structure ReputerOracle where
  isReputerRegistered1 : Except Unit Bool
  getBalance : Except Unit Int
  getParams : Except Unit Params
  sendRegister : Except Unit TxResult
  isReputerRegistered2 : Except Unit Bool
  getStake1 : Except Unit Int
  sendAddStake : Except Unit TxResult
  getStake2 : Except Unit Int
deriving DecidableEq, Repr

/-- `RegisterWorkerIdempotently` (src/lib/repo_tx_registration.go), line by line:
initial `IsWorkerRegistered` read (error → false; true → true); `GetParams` read;
`GetBalance` read; `balance.GTE(RegistrationFee)` check; `RegisterRequest` with
`Sender = Owner = node.Chain.Address`, `IsReputer = false`, via `SendDataWithRetry`
(error → false); re-read `IsWorkerRegistered` (error → false); return the re-read. -/
def RegisterWorkerIdempotently (node : NodeConfig) (o : WorkerOracle)
    (config : WorkerConfig) : Bool × List Event :=
  let t := [Event.readIsWorkerRegistered config.TopicId o.isWorkerRegistered1]
  match o.isWorkerRegistered1 with
  | .error _ => (false, t)
  | .ok isRegistered =>
    if isRegistered then (true, t)
    else
      let t := t ++ [Event.readParams o.getParams]
      match o.getParams with
      | .error _ => (false, t)
      | .ok moduleParams =>
        let t := t ++ [Event.readBalance o.getBalance]
        match o.getBalance with
        | .error _ => (false, t)
        | .ok balance =>
          if ¬ (moduleParams.RegistrationFee ≤ balance) then (false, t)
          else
            let t := t ++ [Event.submitRegister node.Chain.Address config.TopicId
              node.Chain.Address false o.sendRegister]
            match o.sendRegister with
            | .error _ => (false, t)
            | .ok _ =>
              let t := t ++ [Event.readIsWorkerRegistered config.TopicId
                o.isWorkerRegistered2]
              match o.isWorkerRegistered2 with
              | .error _ => (false, t)
              | .ok isRegistered2 => (isRegistered2, t)

/-- The stake phase of `RegisterAndStakeReputerIdempotently` (the part after the
registration `if`/`else`): `GetReputerStakeInTopic(TopicId, node.Chain.Address)`
read (error → false); `minStake.LTE(stake)` → true; else `AddStakeRequest` with
`Sender = node.Wallet.Address`, `Amount = minStake.Sub(stake)`, via
`SendDataWithRetry` (error → false); re-read stake (error → false);
`stake.LT(minStake)` → false; else true. -/
def reputerStakePhase (node : NodeConfig) (o : ReputerOracle)
    (config : ReputerConfig) (t : List Event) : Bool × List Event :=
  let t := t ++ [Event.readStake config.TopicId node.Chain.Address o.getStake1]
  match o.getStake1 with
  | .error _ => (false, t)
  | .ok stake =>
    let minStake := config.MinStake
    if minStake ≤ stake then (true, t)
    else
      let t := t ++ [Event.submitAddStake node.Wallet.Address (minStake - stake)
        config.TopicId o.sendAddStake]
      match o.sendAddStake with
      | .error _ => (false, t)
      | .ok _ =>
        let t := t ++ [Event.readStake config.TopicId node.Chain.Address o.getStake2]
        match o.getStake2 with
        | .error _ => (false, t)
        | .ok stake2 =>
          if stake2 < minStake then (false, t) else (true, t)

/-- `RegisterAndStakeReputerIdempotently` (src/lib/repo_tx_registration.go):
initial `IsReputerRegistered` read (error → false); if already registered, fall
through to the stake phase; otherwise `GetBalance` read, `GetParams` read,
`balance.GTE(RegistrationFee)` check, `RegisterRequest` with
`Sender = Owner = node.Chain.Address`, `IsReputer = true` (error → false),
re-read `IsReputerRegistered` (error → false, still-unregistered → false),
then the stake phase. -/
def RegisterAndStakeReputerIdempotently (node : NodeConfig) (o : ReputerOracle)
    (config : ReputerConfig) : Bool × List Event :=
  let t := [Event.readIsReputerRegistered config.TopicId o.isReputerRegistered1]
  match o.isReputerRegistered1 with
  | .error _ => (false, t)
  | .ok isRegistered =>
    if isRegistered then reputerStakePhase node o config t
    else
      let t := t ++ [Event.readBalance o.getBalance]
      match o.getBalance with
      | .error _ => (false, t)
      | .ok balance =>
        let t := t ++ [Event.readParams o.getParams]
        match o.getParams with
        | .error _ => (false, t)
        | .ok moduleParams =>
          if ¬ (moduleParams.RegistrationFee ≤ balance) then (false, t)
          else
            let t := t ++ [Event.submitRegister node.Chain.Address config.TopicId
              node.Chain.Address true o.sendRegister]
            match o.sendRegister with
            | .error _ => (false, t)
            | .ok _ =>
              let t := t ++ [Event.readIsReputerRegistered config.TopicId
                o.isReputerRegistered2]
              match o.isReputerRegistered2 with
              | .error _ => (false, t)
              | .ok isRegistered2 =>
                if !isRegistered2 then (false, t)
                else reputerStakePhase node o config t

/-- The boolean a registration re-read yields for the engine: a failed read counts
as not registered (the Go code returns false on a read error). -/
def readOrFalse : Except Unit Bool → Bool
  | .error _ => false
  | .ok b => b

/-- Whether a stake read meets the minimum-stake target; a failed read never does. -/
def stakeConverged (minStake : Int) : Except Unit Int → Bool
  | .error _ => false
  | .ok s => decide (minStake ≤ s)

/-- Whether an event is a worker registration-status read reporting registered. -/
def confirmsWorkerRegistered : Event → Bool
  | .readIsWorkerRegistered _ (.ok true) => true
  | _ => false

/-- Whether an event is a stake read reporting at least `minStake`. -/
def confirmsStakeAtLeast (minStake : Int) : Event → Bool
  | .readStake _ _ (.ok s) => decide (minStake ≤ s)
  | _ => false

/-- Whether the last event of a trace satisfies `p` (false for the empty trace). -/
def lastConfirm (p : Event → Bool) : List Event → Bool
  | [] => false
  | [e] => p e
  | _ :: es => lastConfirm p es

/-! Concrete fixtures used by counterexamples and witnesses. -/

/-- A concrete actor identity address. -/
def idAddr : String := "allo1actor"

/-- A concrete node whose chain and wallet addresses are the one identity. -/
def nodeA : NodeConfig := NodeConfig.ofIdentity idAddr

/-- A concrete successful transaction result. -/
def txOk : TxResult := { TxHash := "HASH" }

/-- A concrete worker configuration on topic 7. -/
def wc1 : WorkerConfig := { TopicId := 7 }

/-- A concrete reputer configuration on topic 7 with a minimum stake of 100. -/
def rc1 : ReputerConfig := { TopicId := 7, MinStake := 100 }

/-- Worker oracle: unregistered, fee 0, balance 100, submit errors, re-read true. -/
def woSubmitErr : WorkerOracle :=
  { isWorkerRegistered1 := .ok false, getParams := .ok { RegistrationFee := 0 },
    getBalance := .ok 100, sendRegister := .error (), isWorkerRegistered2 := .ok true }

/-- Worker oracle: unregistered, fee 0, balance 100, submit succeeds, re-read true. -/
def woSubmitOk : WorkerOracle :=
  { isWorkerRegistered1 := .ok false, getParams := .ok { RegistrationFee := 0 },
    getBalance := .ok 100, sendRegister := .ok txOk, isWorkerRegistered2 := .ok true }

/-- Worker oracle: already registered (other responses are never consulted). -/
def woRegistered : WorkerOracle :=
  { isWorkerRegistered1 := .ok true, getParams := .error (),
    getBalance := .error (), sendRegister := .error (), isWorkerRegistered2 := .error () }

/-- Worker oracle: already registered, yet the ledger balance is 0 against fee 100. -/
def woRegisteredPoor : WorkerOracle :=
  { isWorkerRegistered1 := .ok true, getParams := .ok { RegistrationFee := 100 },
    getBalance := .ok 0, sendRegister := .error (), isWorkerRegistered2 := .error () }

/-- Worker oracle: unregistered with balance 0 against fee 100. -/
def woPoor : WorkerOracle :=
  { isWorkerRegistered1 := .ok false, getParams := .ok { RegistrationFee := 100 },
    getBalance := .ok 0, sendRegister := .error (), isWorkerRegistered2 := .error () }

/-- Worker oracle: the initial registration read itself fails. -/
def woReadFail : WorkerOracle :=
  { isWorkerRegistered1 := .error (), getParams := .error (),
    getBalance := .error (), sendRegister := .error (), isWorkerRegistered2 := .error () }

/-- Reputer oracle: registered, stake 0, AddStake submit errors, re-read stake 100. -/
def roStakeErr : ReputerOracle :=
  { isReputerRegistered1 := .ok true, getBalance := .error (), getParams := .error (),
    sendRegister := .error (), isReputerRegistered2 := .error (),
    getStake1 := .ok 0, sendAddStake := .error (), getStake2 := .ok 100 }

/-- Reputer oracle: registered, stake 0, AddStake succeeds, re-read stake 100. -/
def roStakeOk : ReputerOracle :=
  { isReputerRegistered1 := .ok true, getBalance := .error (), getParams := .error (),
    sendRegister := .error (), isReputerRegistered2 := .error (),
    getStake1 := .ok 0, sendAddStake := .ok txOk, getStake2 := .ok 100 }

/-- Reputer oracle: registered with stake already at 150 (above the minimum 100). -/
def roStakeHigh : ReputerOracle :=
  { isReputerRegistered1 := .ok true, getBalance := .error (), getParams := .error (),
    sendRegister := .error (), isReputerRegistered2 := .error (),
    getStake1 := .ok 150, sendAddStake := .error (), getStake2 := .error () }

/-- Reputer oracle: unregistered, funded, register submit errors. -/
def roSubmitErr : ReputerOracle :=
  { isReputerRegistered1 := .ok false, getBalance := .ok 100,
    getParams := .ok { RegistrationFee := 0 }, sendRegister := .error (),
    isReputerRegistered2 := .ok true, getStake1 := .ok 0,
    sendAddStake := .error (), getStake2 := .error () }

/-- Reputer oracle: unregistered, funded, register submit succeeds, re-read still
reports unregistered. -/
def roStillUnregistered : ReputerOracle :=
  { isReputerRegistered1 := .ok false, getBalance := .ok 100,
    getParams := .ok { RegistrationFee := 0 }, sendRegister := .ok txOk,
    isReputerRegistered2 := .ok false, getStake1 := .ok 0,
    sendAddStake := .ok txOk, getStake2 := .ok 100 }

/-- Reputer oracle: unregistered with balance 0 against fee 100. -/
def roPoor : ReputerOracle :=
  { isReputerRegistered1 := .ok false, getBalance := .ok 0,
    getParams := .ok { RegistrationFee := 100 }, sendRegister := .error (),
    isReputerRegistered2 := .error (), getStake1 := .error (),
    sendAddStake := .error (), getStake2 := .error () }

/-- Reputer oracle: the initial registration read itself fails. -/
def roReadFail : ReputerOracle :=
  { isReputerRegistered1 := .error (), getBalance := .error (), getParams := .error (),
    sendRegister := .error (), isReputerRegistered2 := .error (), getStake1 := .error (),
    sendAddStake := .error (), getStake2 := .error () }

/-! Helper lemmas: the stake phase appends only stake reads and AddStake
submissions, so it leaves the other projections of the trace unchanged. -/

theorem reputerStakePhase_regReads (node : NodeConfig) (o : ReputerOracle)
    (c : ReputerConfig) (t : List Event) :
    reputerRegReads (reputerStakePhase node o c t).2 = reputerRegReads t := by
  rcases h1 : o.getStake1 with u | s
  · simp [reputerStakePhase, h1, reputerRegReads, List.filter_append,
      Event.isReputerRegRead]
  · rcases h2 : o.sendAddStake with u | r
    · by_cases hle : c.MinStake ≤ s <;>
        simp [reputerStakePhase, h1, h2, hle, reputerRegReads, List.filter_append,
          Event.isReputerRegRead]
    · rcases h3 : o.getStake2 with u | s2
      · by_cases hle : c.MinStake ≤ s <;>
          simp [reputerStakePhase, h1, h2, h3, hle, reputerRegReads,
            List.filter_append, Event.isReputerRegRead]
      · by_cases hle : c.MinStake ≤ s <;> by_cases hlt : s2 < c.MinStake <;>
          simp [reputerStakePhase, h1, h2, h3, hle, hlt, reputerRegReads,
            List.filter_append, Event.isReputerRegRead]

theorem reputerStakePhase_registerSubmits (node : NodeConfig) (o : ReputerOracle)
    (c : ReputerConfig) (t : List Event) :
    registerSubmits (reputerStakePhase node o c t).2 = registerSubmits t := by
  rcases h1 : o.getStake1 with u | s
  · simp [reputerStakePhase, h1, registerSubmits, List.filter_append,
      Event.isRegisterSubmit]
  · rcases h2 : o.sendAddStake with u | r
    · by_cases hle : c.MinStake ≤ s <;>
        simp [reputerStakePhase, h1, h2, hle, registerSubmits, List.filter_append,
          Event.isRegisterSubmit]
    · rcases h3 : o.getStake2 with u | s2
      · by_cases hle : c.MinStake ≤ s <;>
          simp [reputerStakePhase, h1, h2, h3, hle, registerSubmits,
            List.filter_append, Event.isRegisterSubmit]
      · by_cases hle : c.MinStake ≤ s <;> by_cases hlt : s2 < c.MinStake <;>
          simp [reputerStakePhase, h1, h2, h3, hle, hlt, registerSubmits,
            List.filter_append, Event.isRegisterSubmit]

theorem reputerStakePhase_balanceOrParamsReads (node : NodeConfig) (o : ReputerOracle)
    (c : ReputerConfig) (t : List Event) :
    balanceOrParamsReads (reputerStakePhase node o c t).2 = balanceOrParamsReads t := by
  rcases h1 : o.getStake1 with u | s
  · simp [reputerStakePhase, h1, balanceOrParamsReads, List.filter_append,
      Event.isBalanceOrParamsRead]
  · rcases h2 : o.sendAddStake with u | r
    · by_cases hle : c.MinStake ≤ s <;>
        simp [reputerStakePhase, h1, h2, hle, balanceOrParamsReads,
          List.filter_append, Event.isBalanceOrParamsRead]
    · rcases h3 : o.getStake2 with u | s2
      · by_cases hle : c.MinStake ≤ s <;>
          simp [reputerStakePhase, h1, h2, h3, hle, balanceOrParamsReads,
            List.filter_append, Event.isBalanceOrParamsRead]
      · by_cases hle : c.MinStake ≤ s <;> by_cases hlt : s2 < c.MinStake <;>
          simp [reputerStakePhase, h1, h2, h3, hle, hlt, balanceOrParamsReads,
            List.filter_append, Event.isBalanceOrParamsRead]

/-- C6: if the initial registration-status read reports the identity already
registered as a worker, `RegisterWorkerIdempotently` returns true immediately and its
trace contains no write events; hence two calls in immediate succession on an
already-registered identity (each call's initial read reporting registered, since the
first call wrote nothing) both return true and the second issues zero writes. -/
theorem C6_worker_registration_idempotent (node : NodeConfig) (o1 o2 : WorkerOracle)
    (c : WorkerConfig)
    (h1 : o1.isWorkerRegistered1 = .ok true) (h2 : o2.isWorkerRegistered1 = .ok true) :
    (RegisterWorkerIdempotently node o1 c).1 = true ∧
    writeEvents (RegisterWorkerIdempotently node o1 c).2 = [] ∧
    (RegisterWorkerIdempotently node o2 c).1 = true ∧
    writeEvents (RegisterWorkerIdempotently node o2 c).2 = [] := by
  simp [RegisterWorkerIdempotently, h1, h2, writeEvents, Event.isWrite]

/-- C6 witness: a concrete already-registered worker oracle, applied to both calls. -/
theorem C6_worker_registration_idempotent_witness :
    (RegisterWorkerIdempotently nodeA woRegistered wc1).1 = true ∧
    writeEvents (RegisterWorkerIdempotently nodeA woRegistered wc1).2 = [] ∧
    (RegisterWorkerIdempotently nodeA woRegistered wc1).1 = true ∧
    writeEvents (RegisterWorkerIdempotently nodeA woRegistered wc1).2 = [] :=
  C6_worker_registration_idempotent nodeA woRegistered woRegistered wc1 rfl rfl

/-- C1 counterexample: on the worker path with the ledger reporting unregistered,
sufficient balance, a Register submission that reports an error, and a ledger that
would report registered on a re-read, the function returns false and its trace
contains only the single initial registration read — the submit error short-circuits
the re-read, so the claim's required outcome (true) does not hold. -/
theorem C1_counterexample :
    woSubmitErr.sendRegister = .error () ∧
    woSubmitErr.isWorkerRegistered2 = .ok true ∧
    (RegisterWorkerIdempotently nodeA woSubmitErr wc1).1 = false ∧
    workerRegReads (RegisterWorkerIdempotently nodeA woSubmitErr wc1).2 =
      [Event.readIsWorkerRegistered 7 (.ok false)] := by decide

/-- C1 (amended): on both registration paths, after a Register message is submitted,
if the submit call reported success the engine re-reads registration status (two
registration reads in the trace) and the registration outcome is exactly that freshly
read status (the worker path returns it; the reputer path aborts with false when it is
false); if the submit call reported an error, the operation returns false without
re-reading (one registration read in the trace). -/
theorem C1_amended_register_verification (node : NodeConfig) (wo : WorkerOracle)
    (wc : WorkerConfig) (ro : ReputerOracle) (rc : ReputerConfig)
    (pw pr : Params) (bw br : Int)
    (hw1 : wo.isWorkerRegistered1 = .ok false)
    (hw2 : wo.getParams = .ok pw)
    (hw3 : wo.getBalance = .ok bw)
    (hw4 : pw.RegistrationFee ≤ bw)
    (hr1 : ro.isReputerRegistered1 = .ok false)
    (hr2 : ro.getBalance = .ok br)
    (hr3 : ro.getParams = .ok pr)
    (hr4 : pr.RegistrationFee ≤ br) :
    (wo.sendRegister = .error () →
      (RegisterWorkerIdempotently node wo wc).1 = false ∧
      (workerRegReads (RegisterWorkerIdempotently node wo wc).2).length = 1) ∧
    (∀ r : TxResult, wo.sendRegister = .ok r →
      (RegisterWorkerIdempotently node wo wc).1 = readOrFalse wo.isWorkerRegistered2 ∧
      (workerRegReads (RegisterWorkerIdempotently node wo wc).2).length = 2) ∧
    (ro.sendRegister = .error () →
      (RegisterAndStakeReputerIdempotently node ro rc).1 = false ∧
      (reputerRegReads (RegisterAndStakeReputerIdempotently node ro rc).2).length = 1) ∧
    (∀ r : TxResult, ro.sendRegister = .ok r →
      (reputerRegReads (RegisterAndStakeReputerIdempotently node ro rc).2).length = 2 ∧
      (readOrFalse ro.isReputerRegistered2 = false →
        (RegisterAndStakeReputerIdempotently node ro rc).1 = false)) := by
  refine ⟨?_, ?_, ?_, ?_⟩
  · intro h
    simp [RegisterWorkerIdempotently, hw1, hw2, hw3, hw4, h, workerRegReads,
      Event.isWorkerRegRead, List.filter_append]
  · intro r h
    rcases h2 : wo.isWorkerRegistered2 with u | b
    · simp [RegisterWorkerIdempotently, hw1, hw2, hw3, hw4, h, h2, workerRegReads,
        readOrFalse, Event.isWorkerRegRead, List.filter_append]
    · simp [RegisterWorkerIdempotently, hw1, hw2, hw3, hw4, h, h2, workerRegReads,
        readOrFalse, Event.isWorkerRegRead, List.filter_append]
  · intro h
    simp [RegisterAndStakeReputerIdempotently, hr1, hr2, hr3, hr4, h,
      reputerRegReads, Event.isReputerRegRead, List.filter_append]
  · intro r h
    rcases h2 : ro.isReputerRegistered2 with u | b
    · simp [RegisterAndStakeReputerIdempotently, hr1, hr2, hr3, hr4, h, h2,
        reputerRegReads, readOrFalse, Event.isReputerRegRead, List.filter_append]
    · rcases b with _ | _
      · simp [RegisterAndStakeReputerIdempotently, hr1, hr2, hr3, hr4, h, h2,
          reputerRegReads, readOrFalse, Event.isReputerRegRead, List.filter_append]
      · constructor
        · have hsp := reputerStakePhase_regReads node ro rc
            ([Event.readIsReputerRegistered rc.TopicId ro.isReputerRegistered1] ++
              [Event.readBalance ro.getBalance] ++ [Event.readParams ro.getParams] ++
              [Event.submitRegister node.Chain.Address rc.TopicId node.Chain.Address
                true ro.sendRegister] ++
              [Event.readIsReputerRegistered rc.TopicId ro.isReputerRegistered2])
          simp only [hr1, hr2, hr3, hr4, h, h2, reputerRegReads] at hsp
          simp only [RegisterAndStakeReputerIdempotently, hr1, hr2, hr3, hr4, h, h2,
            reputerRegReads]
          simp only [List.singleton_append, List.cons_append, List.nil_append] at hsp ⊢
          simp [hsp, Event.isReputerRegRead, List.filter]
        · intro hfalse
          simp [readOrFalse, h2] at hfalse

/-- C1 witness: the amended theorem applied at concrete oracles whose Register
submission reports an error: the call returns false after a single registration read. -/
theorem C1_amended_register_verification_witness :
    (RegisterWorkerIdempotently nodeA woSubmitErr wc1).1 = false ∧
    (workerRegReads (RegisterWorkerIdempotently nodeA woSubmitErr wc1).2).length = 1 :=
  (C1_amended_register_verification nodeA woSubmitErr wc1 roSubmitErr rc1
    { RegistrationFee := 0 } { RegistrationFee := 0 } 100 100
    rfl rfl rfl (by decide) rfl rfl rfl (by decide)).1 rfl

/-- C2 counterexample: reputer registered with stake 0 below the minimum 100, the
AddStake submission reports an error, and a re-read of the stake would report 100
(at the minimum); the function returns false and its trace contains only the single
initial stake read — the submit error short-circuits the re-read, so the claim's
required outcome (true) does not hold. -/
theorem C2_counterexample :
    roStakeErr.sendAddStake = .error () ∧
    roStakeErr.getStake2 = .ok 100 ∧
    rc1.MinStake ≤ 100 ∧
    (RegisterAndStakeReputerIdempotently nodeA roStakeErr rc1).1 = false ∧
    stakeReads (RegisterAndStakeReputerIdempotently nodeA roStakeErr rc1).2 =
      [Event.readStake 7 idAddr (.ok 0)] := by decide

/-- C2 (amended): in the reputer stake phase, after an AddStake message is submitted,
if the submit call reported success the engine re-reads the stake (two stake reads in
the trace) and returns true exactly when the freshly read stake is at least MinStake
(a failed re-read yields false); if the submit call reported an error, the operation
returns false without re-reading (one stake read in the trace). -/
theorem C2_amended_stake_verification (node : NodeConfig) (o : ReputerOracle)
    (c : ReputerConfig) (s : Int)
    (h1 : o.isReputerRegistered1 = .ok true)
    (h2 : o.getStake1 = .ok s)
    (h3 : s < c.MinStake) :
    (o.sendAddStake = .error () →
      (RegisterAndStakeReputerIdempotently node o c).1 = false ∧
      (stakeReads (RegisterAndStakeReputerIdempotently node o c).2).length = 1) ∧
    (∀ r : TxResult, o.sendAddStake = .ok r →
      (RegisterAndStakeReputerIdempotently node o c).1 =
        stakeConverged c.MinStake o.getStake2 ∧
      (stakeReads (RegisterAndStakeReputerIdempotently node o c).2).length = 2) := by
  have hnle : ¬ (c.MinStake ≤ s) := not_le.mpr h3
  constructor
  · intro h
    simp [RegisterAndStakeReputerIdempotently, reputerStakePhase, h1, h2, h, hnle,
      stakeReads, Event.isStakeRead, List.filter_append]
  · intro r h
    rcases h4 : o.getStake2 with u | s2
    · simp [RegisterAndStakeReputerIdempotently, reputerStakePhase, h1, h2, h, h4,
        hnle, stakeConverged, stakeReads, Event.isStakeRead, List.filter_append]
    · rcases lt_or_le s2 c.MinStake with hlt | hge
      · have hnle2 : ¬ (c.MinStake ≤ s2) := not_le.mpr hlt
        simp [RegisterAndStakeReputerIdempotently, reputerStakePhase, h1, h2, h, h4,
          hnle, hlt, hnle2, stakeConverged, stakeReads, Event.isStakeRead,
          List.filter_append]
      · have hnlt : ¬ (s2 < c.MinStake) := not_lt.mpr hge
        simp [RegisterAndStakeReputerIdempotently, reputerStakePhase, h1, h2, h, h4,
          hnle, hge, hnlt, stakeConverged, stakeReads, Event.isStakeRead,
          List.filter_append]

/-- C2 witness: the amended theorem applied at a concrete oracle whose AddStake
submission reports an error: the call returns false after a single stake read. -/
theorem C2_amended_stake_verification_witness :
    (RegisterAndStakeReputerIdempotently nodeA roStakeErr rc1).1 = false ∧
    (stakeReads (RegisterAndStakeReputerIdempotently nodeA roStakeErr rc1).2).length = 1 :=
  (C2_amended_stake_verification nodeA roStakeErr rc1 0 rfl rfl (by decide)).1 rfl

/-- Every event the stake phase appends is a stake read against
`node.Chain.Address` or an AddStake submission sent by `node.Wallet.Address`. -/
theorem reputerStakePhase_mem (node : NodeConfig) (o : ReputerOracle)
    (c : ReputerConfig) (t : List Event) :
    ∀ e ∈ (reputerStakePhase node o c t).2, e ∈ t ∨
      (∃ r, e = Event.readStake c.TopicId node.Chain.Address r) ∨
      (∃ amt r, e = Event.submitAddStake node.Wallet.Address amt c.TopicId r) := by
  intro e he
  rcases h1 : o.getStake1 with u | s
  · simp only [reputerStakePhase, h1, List.mem_append, List.mem_singleton] at he
    rcases he with he | he
    · exact Or.inl he
    · exact Or.inr (Or.inl ⟨_, he⟩)
  · by_cases hle : c.MinStake ≤ s
    · simp only [reputerStakePhase, h1, hle, if_true, List.mem_append,
        List.mem_singleton] at he
      rcases he with he | he
      · exact Or.inl he
      · exact Or.inr (Or.inl ⟨_, he⟩)
    · rcases h2 : o.sendAddStake with u | r
      · simp only [reputerStakePhase, h1, hle, if_false, h2, List.mem_append,
          List.mem_singleton] at he
        rcases he with (he | he) | he
        · exact Or.inl he
        · exact Or.inr (Or.inl ⟨_, he⟩)
        · exact Or.inr (Or.inr ⟨_, _, he⟩)
      · rcases h3 : o.getStake2 with u | s2
        · simp only [reputerStakePhase, h1, hle, if_false, h2, h3, List.mem_append,
            List.mem_singleton] at he
          rcases he with ((he | he) | he) | he
          · exact Or.inl he
          · exact Or.inr (Or.inl ⟨_, he⟩)
          · exact Or.inr (Or.inr ⟨_, _, he⟩)
          · exact Or.inr (Or.inl ⟨_, he⟩)
        · by_cases hlt : s2 < c.MinStake <;>
          · simp [reputerStakePhase, h1, hle, h2, h3, hlt] at he
            rcases he with he | he | he | he
            · exact Or.inl he
            · exact Or.inr (Or.inl ⟨_, he⟩)
            · exact Or.inr (Or.inr ⟨_, _, he⟩)
            · exact Or.inr (Or.inl ⟨_, he⟩)

/-- Every event in the reputer trace is one of: a registration read, a balance read,
a params read, a Register submission with sender and owner `node.Chain.Address`, a
stake read against `node.Chain.Address`, or an AddStake submission sent by
`node.Wallet.Address`. -/
theorem reputer_mem (node : NodeConfig) (o : ReputerOracle) (c : ReputerConfig) :
    ∀ e ∈ (RegisterAndStakeReputerIdempotently node o c).2,
      (∃ topic r, e = Event.readIsReputerRegistered topic r) ∨
      (∃ r, e = Event.readBalance r) ∨
      (∃ r, e = Event.readParams r) ∨
      (∃ r, e = Event.submitRegister node.Chain.Address c.TopicId
        node.Chain.Address true r) ∨
      (∃ r, e = Event.readStake c.TopicId node.Chain.Address r) ∨
      (∃ amt r, e = Event.submitAddStake node.Wallet.Address amt c.TopicId r) := by
  intro e he
  rcases h1 : o.isReputerRegistered1 with u | b1
  · simp only [RegisterAndStakeReputerIdempotently, h1, List.mem_singleton] at he
    exact Or.inl ⟨_, _, he⟩
  · rcases b1 with _ | _
    · -- not yet registered: registration branch first
      rcases h2 : o.getBalance with u | bal
      · simp only [RegisterAndStakeReputerIdempotently, h1, h2, Bool.false_eq_true,
          if_false, List.mem_append, List.mem_singleton] at he
        rcases he with he | he
        · exact Or.inl ⟨_, _, he⟩
        · exact Or.inr (Or.inl ⟨_, he⟩)
      · rcases h3 : o.getParams with u | pv
        · simp only [RegisterAndStakeReputerIdempotently, h1, h2, h3,
            Bool.false_eq_true, if_false, List.mem_append, List.mem_singleton] at he
          rcases he with (he | he) | he
          · exact Or.inl ⟨_, _, he⟩
          · exact Or.inr (Or.inl ⟨_, he⟩)
          · exact Or.inr (Or.inr (Or.inl ⟨_, he⟩))
        · by_cases hfee : pv.RegistrationFee ≤ bal
          · rcases h4 : o.sendRegister with u | rv
            · simp only [RegisterAndStakeReputerIdempotently, h1, h2, h3, h4, hfee,
                not_true, Bool.false_eq_true, if_false, List.mem_append,
                List.mem_singleton] at he
              rcases he with ((he | he) | he) | he
              · exact Or.inl ⟨_, _, he⟩
              · exact Or.inr (Or.inl ⟨_, he⟩)
              · exact Or.inr (Or.inr (Or.inl ⟨_, he⟩))
              · exact Or.inr (Or.inr (Or.inr (Or.inl ⟨_, he⟩)))
            · rcases h5 : o.isReputerRegistered2 with u | b2
              · simp only [RegisterAndStakeReputerIdempotently, h1, h2, h3, h4, h5,
                  hfee, not_true, Bool.false_eq_true, if_false, List.mem_append,
                  List.mem_singleton] at he
                rcases he with (((he | he) | he) | he) | he
                · exact Or.inl ⟨_, _, he⟩
                · exact Or.inr (Or.inl ⟨_, he⟩)
                · exact Or.inr (Or.inr (Or.inl ⟨_, he⟩))
                · exact Or.inr (Or.inr (Or.inr (Or.inl ⟨_, he⟩)))
                · exact Or.inl ⟨_, _, he⟩
              · rcases b2 with _ | _
                · simp only [RegisterAndStakeReputerIdempotently, h1, h2, h3, h4, h5,
                    hfee, not_true, Bool.false_eq_true, if_false, Bool.not_false,
                    if_true, List.mem_append, List.mem_singleton] at he
                  rcases he with (((he | he) | he) | he) | he
                  · exact Or.inl ⟨_, _, he⟩
                  · exact Or.inr (Or.inl ⟨_, he⟩)
                  · exact Or.inr (Or.inr (Or.inl ⟨_, he⟩))
                  · exact Or.inr (Or.inr (Or.inr (Or.inl ⟨_, he⟩)))
                  · exact Or.inl ⟨_, _, he⟩
                · simp only [RegisterAndStakeReputerIdempotently, h1, h2, h3, h4, h5,
                    hfee, not_true, Bool.false_eq_true, if_false, Bool.not_true,
                    List.mem_append, List.mem_singleton] at he
                  rcases reputerStakePhase_mem node o c _ e he with ht | h | h
                  · simp only [List.mem_append, List.mem_singleton] at ht
                    rcases ht with (((ht | ht) | ht) | ht) | ht
                    · exact Or.inl ⟨_, _, ht⟩
                    · exact Or.inr (Or.inl ⟨_, ht⟩)
                    · exact Or.inr (Or.inr (Or.inl ⟨_, ht⟩))
                    · exact Or.inr (Or.inr (Or.inr (Or.inl ⟨_, ht⟩)))
                    · exact Or.inl ⟨_, _, ht⟩
                  · exact Or.inr (Or.inr (Or.inr (Or.inr (Or.inl h))))
                  · exact Or.inr (Or.inr (Or.inr (Or.inr (Or.inr h))))
          · simp only [RegisterAndStakeReputerIdempotently, h1, h2, h3, hfee,
              not_false_iff, Bool.false_eq_true, if_false, if_true, List.mem_append,
              List.mem_singleton] at he
            rcases he with (he | he) | he
            · exact Or.inl ⟨_, _, he⟩
            · exact Or.inr (Or.inl ⟨_, he⟩)
            · exact Or.inr (Or.inr (Or.inl ⟨_, he⟩))
    · -- already registered: straight to the stake phase
      simp only [RegisterAndStakeReputerIdempotently, h1, if_true] at he
      rcases reputerStakePhase_mem node o c _ e he with ht | h | h
      · simp only [List.mem_singleton] at ht
        exact Or.inl ⟨_, _, ht⟩
      · exact Or.inr (Or.inr (Or.inr (Or.inr (Or.inl h))))
      · exact Or.inr (Or.inr (Or.inr (Or.inr (Or.inr h))))

/-- C3: with the node set up from the spec's single actor identity (the setup code
that populates `NodeConfig` is not in src/, see `NodeConfig.ofIdentity`), every
address occurring in any event of a reputer reconciliation trace — in particular the
sender of a submitted AddStake request, the sender and owner of a submitted Register
request, and the address queried by each stake read — is that one identity. -/
theorem C3_addstake_sender_is_identity (identity : String) (o : ReputerOracle)
    (c : ReputerConfig) :
    ∀ e ∈ (RegisterAndStakeReputerIdempotently (NodeConfig.ofIdentity identity) o c).2,
      ∀ a ∈ e.addresses, a = identity := by
  intro e he a ha
  rcases reputer_mem (NodeConfig.ofIdentity identity) o c e he with
    ⟨topic, r, rfl⟩ | ⟨r, rfl⟩ | ⟨r, rfl⟩ | ⟨r, rfl⟩ | ⟨r, rfl⟩ | ⟨amt, r, rfl⟩ <;>
    simp [Event.addresses, NodeConfig.ofIdentity] at ha <;> tauto

/-- C3 witness: at a concrete identity and oracle, the theorem applied to the
AddStake submission event that the call emits. -/
theorem C3_addstake_sender_is_identity_witness : idAddr = idAddr :=
  C3_addstake_sender_is_identity idAddr roStakeOk rc1
    (Event.submitAddStake idAddr 100 7 (.ok txOk)) (by decide) idAddr (by decide)

/-- The stake phase appends exactly one AddStake amount, `MinStake − stake`, when the
stake read succeeds with a value below `MinStake`, and none otherwise. -/
theorem reputerStakePhase_addStakeAmounts (node : NodeConfig) (o : ReputerOracle)
    (c : ReputerConfig) (t : List Event) :
    addStakeAmounts (reputerStakePhase node o c t).2 =
      addStakeAmounts t ++
        match o.getStake1 with
        | .error _ => []
        | .ok s => if c.MinStake ≤ s then [] else [c.MinStake - s] := by
  rcases h1 : o.getStake1 with u | s
  · simp [reputerStakePhase, h1, addStakeAmounts, List.filterMap_append,
      Event.addStakeAmount]
  · by_cases hle : c.MinStake ≤ s
    · simp [reputerStakePhase, h1, hle, addStakeAmounts, List.filterMap_append,
        Event.addStakeAmount]
    · rcases h2 : o.sendAddStake with u | r
      · simp [reputerStakePhase, h1, hle, h2, addStakeAmounts, List.filterMap_append,
          Event.addStakeAmount]
      · rcases h3 : o.getStake2 with u | s2
        · simp [reputerStakePhase, h1, hle, h2, h3, addStakeAmounts,
            List.filterMap_append, Event.addStakeAmount]
        · by_cases hlt : s2 < c.MinStake <;>
            simp [reputerStakePhase, h1, hle, h2, h3, hlt, addStakeAmounts,
              List.filterMap_append, Event.addStakeAmount]

/-- Every AddStake amount submitted during a reputer reconciliation call is
strictly positive. -/
theorem reputer_addStakeAmounts_pos (node : NodeConfig) (o : ReputerOracle)
    (c : ReputerConfig) :
    ∀ a ∈ addStakeAmounts (RegisterAndStakeReputerIdempotently node o c).2, 0 < a := by
  intro a ha
  have hphase : ∀ t : List Event, addStakeAmounts t = [] →
      a ∈ addStakeAmounts (reputerStakePhase node o c t).2 → 0 < a := by
    intro t ht hmem
    rw [reputerStakePhase_addStakeAmounts, ht, List.nil_append] at hmem
    rcases hs : o.getStake1 with u | s
    · rw [hs] at hmem; simp at hmem
    · rw [hs] at hmem
      by_cases hle : c.MinStake ≤ s
      · simp [hle] at hmem
      · simp [hle] at hmem
        omega
  rcases h1 : o.isReputerRegistered1 with u | b1
  · simp [RegisterAndStakeReputerIdempotently, h1, addStakeAmounts,
      Event.addStakeAmount] at ha
  · rcases b1 with _ | _
    · rcases h2 : o.getBalance with u | bal
      · simp [RegisterAndStakeReputerIdempotently, h1, h2, addStakeAmounts,
          Event.addStakeAmount] at ha
      · rcases h3 : o.getParams with u | pv
        · simp [RegisterAndStakeReputerIdempotently, h1, h2, h3, addStakeAmounts,
            Event.addStakeAmount] at ha
        · by_cases hfee : pv.RegistrationFee ≤ bal
          · rcases h4 : o.sendRegister with u | rv
            · simp [RegisterAndStakeReputerIdempotently, h1, h2, h3, h4, hfee,
                addStakeAmounts, Event.addStakeAmount] at ha
            · rcases h5 : o.isReputerRegistered2 with u | b2
              · simp [RegisterAndStakeReputerIdempotently, h1, h2, h3, h4, h5, hfee,
                  addStakeAmounts, Event.addStakeAmount] at ha
              · rcases b2 with _ | _
                · simp [RegisterAndStakeReputerIdempotently, h1, h2, h3, h4, h5, hfee,
                    addStakeAmounts, Event.addStakeAmount] at ha
                · refine hphase
                    ([Event.readIsReputerRegistered c.TopicId (.ok false)] ++
                     [Event.readBalance (.ok bal)] ++ [Event.readParams (.ok pv)] ++
                     [Event.submitRegister node.Chain.Address c.TopicId
                       node.Chain.Address true (.ok rv)] ++
                     [Event.readIsReputerRegistered c.TopicId (.ok true)]) ?_ ?_
                  · simp [addStakeAmounts, Event.addStakeAmount]
                  · simp only [RegisterAndStakeReputerIdempotently, h1, h2, h3, h4,
                      h5, hfee, not_true, Bool.false_eq_true, if_false, Bool.not_true,
                      if_true] at ha
                    exact ha
          · simp [RegisterAndStakeReputerIdempotently, h1, h2, h3, hfee,
              addStakeAmounts, Event.addStakeAmount] at ha
    · refine hphase [Event.readIsReputerRegistered c.TopicId (.ok true)] ?_ ?_
      · simp [addStakeAmounts, Event.addStakeAmount]
      · simp only [RegisterAndStakeReputerIdempotently, h1, if_true] at ha
        exact ha

/-- C4: on the reputer path with registration already confirmed and the stake read
returning S: if MinStake ≤ S, no AddStake is submitted and the call returns true; if
S < MinStake, the submitted AddStake amounts are exactly the one-element list
[MinStake − S]; and (for every oracle) the engine never submits an AddStake with a
zero or negative amount. -/
theorem C4_stake_delta (node : NodeConfig) (o : ReputerOracle) (c : ReputerConfig)
    (s : Int)
    (h1 : o.isReputerRegistered1 = .ok true)
    (h2 : o.getStake1 = .ok s) :
    (c.MinStake ≤ s →
      addStakeAmounts (RegisterAndStakeReputerIdempotently node o c).2 = [] ∧
      (RegisterAndStakeReputerIdempotently node o c).1 = true) ∧
    (s < c.MinStake →
      addStakeAmounts (RegisterAndStakeReputerIdempotently node o c).2 =
        [c.MinStake - s]) ∧
    (∀ o' : ReputerOracle, ∀ a ∈ addStakeAmounts
        (RegisterAndStakeReputerIdempotently node o' c).2, 0 < a) := by
  have hred : RegisterAndStakeReputerIdempotently node o c =
      reputerStakePhase node o c
        [Event.readIsReputerRegistered c.TopicId o.isReputerRegistered1] := by
    simp [RegisterAndStakeReputerIdempotently, h1]
  refine ⟨?_, ?_, ?_⟩
  · intro hle
    constructor
    · rw [hred, reputerStakePhase_addStakeAmounts, h2]
      simp [hle, addStakeAmounts, Event.addStakeAmount]
    · rw [hred]
      simp [reputerStakePhase, h2, hle]
  · intro hlt
    have hnle : ¬ (c.MinStake ≤ s) := not_le.mpr hlt
    rw [hred, reputerStakePhase_addStakeAmounts, h2]
    simp [hnle, addStakeAmounts, Event.addStakeAmount]
  · intro o'
    exact reputer_addStakeAmounts_pos node o' c

/-- C4 witness: registered, stake 0, minimum 100 — exactly one AddStake of 100. -/
theorem C4_stake_delta_witness :
    addStakeAmounts (RegisterAndStakeReputerIdempotently nodeA roStakeOk rc1).2 =
      [100] := by
  have h := (C4_stake_delta nodeA roStakeOk rc1 0 rfl rfl).2.1 (by decide)
  simpa using h

/-- C5 counterexample: an identity already registered as worker with ledger balance 0
against registration fee 100 — no Register is submitted, but the operation returns
true (the registered branch never reads the balance), so the claim's required
outcome (false) does not hold. -/
theorem C5_counterexample :
    woRegisteredPoor.getBalance = .ok 0 ∧
    woRegisteredPoor.getParams = .ok { RegistrationFee := 100 } ∧
    ((0 : Int) < 100) ∧
    (RegisterWorkerIdempotently nodeA woRegisteredPoor wc1).1 = true := by decide

/-- C5 (amended): for every balance strictly below the registration fee, neither the
worker path nor the reputer path issues a Register submission; and whenever the
initial registration read reports the identity not registered (the only branch that
can register), the operation returns false. -/
theorem C5_amended_no_underfunded_register (node : NodeConfig) (wo : WorkerOracle)
    (wc : WorkerConfig) (ro : ReputerOracle) (rc : ReputerConfig)
    (pw pr : Params) (bw br : Int)
    (hwp : wo.getParams = .ok pw) (hwb : wo.getBalance = .ok bw)
    (hwlt : bw < pw.RegistrationFee)
    (hrp : ro.getParams = .ok pr) (hrb : ro.getBalance = .ok br)
    (hrlt : br < pr.RegistrationFee) :
    registerSubmits (RegisterWorkerIdempotently node wo wc).2 = [] ∧
    (wo.isWorkerRegistered1 = .ok false →
      (RegisterWorkerIdempotently node wo wc).1 = false) ∧
    registerSubmits (RegisterAndStakeReputerIdempotently node ro rc).2 = [] ∧
    (ro.isReputerRegistered1 = .ok false →
      (RegisterAndStakeReputerIdempotently node ro rc).1 = false) := by
  have hw : ¬ (pw.RegistrationFee ≤ bw) := not_le.mpr hwlt
  have hr : ¬ (pr.RegistrationFee ≤ br) := not_le.mpr hrlt
  refine ⟨?_, ?_, ?_, ?_⟩
  · rcases h1 : wo.isWorkerRegistered1 with u | b1
    · simp [RegisterWorkerIdempotently, h1, registerSubmits, Event.isRegisterSubmit]
    · rcases b1 with _ | _
      · simp [RegisterWorkerIdempotently, h1, hwp, hwb, hw, registerSubmits,
          Event.isRegisterSubmit, List.filter_append]
      · simp [RegisterWorkerIdempotently, h1, registerSubmits, Event.isRegisterSubmit]
  · intro h1
    simp [RegisterWorkerIdempotently, h1, hwp, hwb, hw]
  · rcases h1 : ro.isReputerRegistered1 with u | b1
    · simp [RegisterAndStakeReputerIdempotently, h1, registerSubmits,
        Event.isRegisterSubmit]
    · rcases b1 with _ | _
      · simp [RegisterAndStakeReputerIdempotently, h1, hrp, hrb, hr, registerSubmits,
          Event.isRegisterSubmit, List.filter_append]
      · have hred : RegisterAndStakeReputerIdempotently node ro rc =
            reputerStakePhase node ro rc
              [Event.readIsReputerRegistered rc.TopicId (.ok true)] := by
          simp [RegisterAndStakeReputerIdempotently, h1]
        rw [hred, reputerStakePhase_registerSubmits]
        simp [registerSubmits, Event.isRegisterSubmit]
  · intro h1
    simp [RegisterAndStakeReputerIdempotently, h1, hrp, hrb, hr]

/-- C5 witness: unregistered identities with balance 0 against fee 100 on both paths:
no Register submission and a false result. -/
theorem C5_amended_no_underfunded_register_witness :
    registerSubmits (RegisterWorkerIdempotently nodeA woPoor wc1).2 = [] ∧
    (RegisterWorkerIdempotently nodeA woPoor wc1).1 = false :=
  ⟨(C5_amended_no_underfunded_register nodeA woPoor wc1 roPoor rc1
      { RegistrationFee := 100 } { RegistrationFee := 100 } 0 0
      rfl rfl (by decide) rfl rfl (by decide)).1,
   (C5_amended_no_underfunded_register nodeA woPoor wc1 roPoor rc1
      { RegistrationFee := 100 } { RegistrationFee := 100 } 0 0
      rfl rfl (by decide) rfl rfl (by decide)).2.1 rfl⟩

/-- The stake phase only ever appends to the trace it is given. -/
theorem reputerStakePhase_extends (node : NodeConfig) (o : ReputerOracle)
    (c : ReputerConfig) (t : List Event) :
    ∃ extra : List Event, (reputerStakePhase node o c t).2 = t ++ extra := by
  rcases h1 : o.getStake1 with u | s
  · exact ⟨_, by simp [reputerStakePhase, h1]; try rfl⟩
  · by_cases hle : c.MinStake ≤ s
    · exact ⟨_, by simp [reputerStakePhase, h1, hle]; try rfl⟩
    · rcases h2 : o.sendAddStake with u | r
      · exact ⟨_, by simp [reputerStakePhase, h1, hle, h2]; try rfl⟩
      · rcases h3 : o.getStake2 with u | s2
        · exact ⟨_, by simp [reputerStakePhase, h1, hle, h2, h3]; try rfl⟩
        · by_cases hlt : s2 < c.MinStake
          · exact ⟨_, by simp [reputerStakePhase, h1, hle, h2, h3, hlt]; try rfl⟩
          · exact ⟨_, by simp [reputerStakePhase, h1, hle, h2, h3, hlt]; try rfl⟩

/-- C7: the reputer path issues an AddStake submission only when a ledger read
confirmed registration: if the trace contains any AddStake amount, either the initial
registration read or the post-registration re-read returned registered, and the trace
contains a registration read reporting registered; and when the identity starts
unregistered and the re-read would still report unregistered, the whole operation
returns false with no AddStake submission and no stake read at all. -/
theorem C7_phase_ordering (node : NodeConfig) (o : ReputerOracle) (c : ReputerConfig) :
    (addStakeAmounts (RegisterAndStakeReputerIdempotently node o c).2 ≠ [] →
      (o.isReputerRegistered1 = .ok true ∨ o.isReputerRegistered2 = .ok true) ∧
      Event.readIsReputerRegistered c.TopicId (.ok true) ∈
        (RegisterAndStakeReputerIdempotently node o c).2) ∧
    (o.isReputerRegistered1 = .ok false → o.isReputerRegistered2 = .ok false →
      (RegisterAndStakeReputerIdempotently node o c).1 = false ∧
      addStakeAmounts (RegisterAndStakeReputerIdempotently node o c).2 = [] ∧
      stakeReads (RegisterAndStakeReputerIdempotently node o c).2 = []) := by
  constructor
  · intro hne
    rcases h1 : o.isReputerRegistered1 with u | b1
    · exact absurd (by simp [RegisterAndStakeReputerIdempotently, h1,
        addStakeAmounts, Event.addStakeAmount]) hne
    · rcases b1 with _ | _
      · rcases h2 : o.getBalance with u | bal
        · exact absurd (by simp [RegisterAndStakeReputerIdempotently, h1, h2,
            addStakeAmounts, Event.addStakeAmount, List.filterMap_append]) hne
        · rcases h3 : o.getParams with u | pv
          · exact absurd (by simp [RegisterAndStakeReputerIdempotently, h1, h2, h3,
              addStakeAmounts, Event.addStakeAmount, List.filterMap_append]) hne
          · by_cases hfee : pv.RegistrationFee ≤ bal
            · rcases h4 : o.sendRegister with u | rv
              · exact absurd (by simp [RegisterAndStakeReputerIdempotently, h1, h2,
                  h3, h4, hfee, addStakeAmounts, Event.addStakeAmount,
                  List.filterMap_append]) hne
              · rcases h5 : o.isReputerRegistered2 with u | b2
                · exact absurd (by simp [RegisterAndStakeReputerIdempotently, h1, h2,
                    h3, h4, h5, hfee, addStakeAmounts, Event.addStakeAmount,
                    List.filterMap_append]) hne
                · rcases b2 with _ | _
                  · exact absurd (by simp [RegisterAndStakeReputerIdempotently, h1,
                      h2, h3, h4, h5, hfee, addStakeAmounts, Event.addStakeAmount,
                      List.filterMap_append]) hne
                  · refine ⟨Or.inr rfl, ?_⟩
                    have hred : RegisterAndStakeReputerIdempotently node o c =
                        reputerStakePhase node o c
                          ([Event.readIsReputerRegistered c.TopicId (.ok false)] ++
                           [Event.readBalance (.ok bal)] ++
                           [Event.readParams (.ok pv)] ++
                           [Event.submitRegister node.Chain.Address c.TopicId
                             node.Chain.Address true (.ok rv)] ++
                           [Event.readIsReputerRegistered c.TopicId (.ok true)]) := by
                      simp [RegisterAndStakeReputerIdempotently, h1, h2, h3, h4, h5,
                        hfee]
                    rw [hred]
                    obtain ⟨extra, hx⟩ := reputerStakePhase_extends node o c
                      ([Event.readIsReputerRegistered c.TopicId (.ok false)] ++
                       [Event.readBalance (.ok bal)] ++
                       [Event.readParams (.ok pv)] ++
                       [Event.submitRegister node.Chain.Address c.TopicId
                         node.Chain.Address true (.ok rv)] ++
                       [Event.readIsReputerRegistered c.TopicId (.ok true)])
                    rw [hx]
                    simp
            · exact absurd (by simp [RegisterAndStakeReputerIdempotently, h1, h2, h3,
                hfee, addStakeAmounts, Event.addStakeAmount,
                List.filterMap_append]) hne
      · refine ⟨Or.inl rfl, ?_⟩
        have hred : RegisterAndStakeReputerIdempotently node o c =
            reputerStakePhase node o c
              [Event.readIsReputerRegistered c.TopicId (.ok true)] := by
          simp [RegisterAndStakeReputerIdempotently, h1]
        rw [hred]
        obtain ⟨extra, hx⟩ := reputerStakePhase_extends node o c
          [Event.readIsReputerRegistered c.TopicId (.ok true)]
        rw [hx]
        simp
  · intro h1 h5
    rcases h2 : o.getBalance with u | bal
    · simp [RegisterAndStakeReputerIdempotently, h1, h2, addStakeAmounts,
        Event.addStakeAmount, stakeReads, Event.isStakeRead, List.filter_append,
        List.filterMap_append]
    · rcases h3 : o.getParams with u | pv
      · simp [RegisterAndStakeReputerIdempotently, h1, h2, h3, addStakeAmounts,
          Event.addStakeAmount, stakeReads, Event.isStakeRead, List.filter_append,
          List.filterMap_append]
      · by_cases hfee : pv.RegistrationFee ≤ bal
        · rcases h4 : o.sendRegister with u | rv
          · simp [RegisterAndStakeReputerIdempotently, h1, h2, h3, h4, hfee,
              addStakeAmounts, Event.addStakeAmount, stakeReads, Event.isStakeRead,
              List.filter_append, List.filterMap_append]
          · simp [RegisterAndStakeReputerIdempotently, h1, h2, h3, h4, h5, hfee,
              addStakeAmounts, Event.addStakeAmount, stakeReads, Event.isStakeRead,
              List.filter_append, List.filterMap_append]
        · simp [RegisterAndStakeReputerIdempotently, h1, h2, h3, hfee,
            addStakeAmounts, Event.addStakeAmount, stakeReads, Event.isStakeRead,
            List.filter_append, List.filterMap_append]

/-- C7 witness: the theorem applied at an oracle that stakes after a confirming
initial read, and at an oracle whose re-read still reports unregistered. -/
theorem C7_phase_ordering_witness :
    ((roStakeOk.isReputerRegistered1 = .ok true ∨
       roStakeOk.isReputerRegistered2 = .ok true) ∧
     Event.readIsReputerRegistered rc1.TopicId (.ok true) ∈
       (RegisterAndStakeReputerIdempotently nodeA roStakeOk rc1).2) ∧
    ((RegisterAndStakeReputerIdempotently nodeA roStillUnregistered rc1).1 = false ∧
     addStakeAmounts
       (RegisterAndStakeReputerIdempotently nodeA roStillUnregistered rc1).2 = [] ∧
     stakeReads
       (RegisterAndStakeReputerIdempotently nodeA roStillUnregistered rc1).2 = []) :=
  ⟨(C7_phase_ordering nodeA roStakeOk rc1).1 (by decide),
   (C7_phase_ordering nodeA roStillUnregistered rc1).2 rfl rfl⟩

/-- `lastConfirm` only looks at the final segment of an appended trace. -/
theorem lastConfirm_append (p : Event → Bool) (t : List Event) (e : Event)
    (l : List Event) :
    lastConfirm p (t ++ e :: l) = lastConfirm p (e :: l) := by
  induction t with
  | nil => rfl
  | cons a as ih =>
    cases as with
    | nil => simp [lastConfirm]
    | cons b bs => simpa [lastConfirm] using ih

/-- Whenever the stake phase returns true, the last ledger interaction of its trace
is a stake read reporting at least `MinStake`. -/
theorem reputerStakePhase_lastConfirm (node : NodeConfig) (o : ReputerOracle)
    (c : ReputerConfig) (t : List Event) :
    (reputerStakePhase node o c t).1 = true →
    lastConfirm (confirmsStakeAtLeast c.MinStake)
      (reputerStakePhase node o c t).2 = true := by
  rcases h1 : o.getStake1 with u | s
  · simp [reputerStakePhase, h1]
  · by_cases hle : c.MinStake ≤ s
    · intro _
      simp [reputerStakePhase, h1, hle, lastConfirm_append, lastConfirm,
        confirmsStakeAtLeast]
    · rcases h2 : o.sendAddStake with u | r
      · simp [reputerStakePhase, h1, hle, h2]
      · rcases h3 : o.getStake2 with u | s2
        · simp [reputerStakePhase, h1, hle, h2, h3]
        · by_cases hlt : s2 < c.MinStake
          · simp [reputerStakePhase, h1, hle, h2, h3, hlt]
          · intro _
            simp [reputerStakePhase, h1, hle, h2, h3, hlt, lastConfirm_append,
              lastConfirm, confirmsStakeAtLeast, not_lt.mp hlt]

/-- C8: whenever either entry point returns true, the final ledger interaction of the
call (hence performed after every write of the call) is a verifying read — a
registration-status read reporting registered on the worker path, a stake read
reporting at least MinStake on the reputer path; true is never returned on the basis
of a submit call's own reported result. -/
theorem C8_fresh_read_convergence (node : NodeConfig) (wo : WorkerOracle)
    (wc : WorkerConfig) (ro : ReputerOracle) (rc : ReputerConfig) :
    ((RegisterWorkerIdempotently node wo wc).1 = true →
      lastConfirm confirmsWorkerRegistered
        (RegisterWorkerIdempotently node wo wc).2 = true) ∧
    ((RegisterAndStakeReputerIdempotently node ro rc).1 = true →
      lastConfirm (confirmsStakeAtLeast rc.MinStake)
        (RegisterAndStakeReputerIdempotently node ro rc).2 = true) := by
  constructor
  · rcases h1 : wo.isWorkerRegistered1 with u | b1
    · simp [RegisterWorkerIdempotently, h1]
    · rcases b1 with _ | _
      · rcases h2 : wo.getParams with u | pv
        · simp [RegisterWorkerIdempotently, h1, h2]
        · rcases h3 : wo.getBalance with u | bal
          · simp [RegisterWorkerIdempotently, h1, h2, h3]
          · by_cases hfee : pv.RegistrationFee ≤ bal
            · rcases h4 : wo.sendRegister with u | rv
              · simp [RegisterWorkerIdempotently, h1, h2, h3, h4, hfee]
              · rcases h5 : wo.isWorkerRegistered2 with u | b2
                · simp [RegisterWorkerIdempotently, h1, h2, h3, h4, h5, hfee]
                · rcases b2 with _ | _
                  · simp [RegisterWorkerIdempotently, h1, h2, h3, h4, h5, hfee]
                  · simp [RegisterWorkerIdempotently, h1, h2, h3, h4, h5, hfee,
                      lastConfirm, confirmsWorkerRegistered]
            · simp [RegisterWorkerIdempotently, h1, h2, h3, hfee]
      · simp [RegisterWorkerIdempotently, h1, lastConfirm, confirmsWorkerRegistered]
  · rcases h1 : ro.isReputerRegistered1 with u | b1
    · simp [RegisterAndStakeReputerIdempotently, h1]
    · rcases b1 with _ | _
      · rcases h2 : ro.getBalance with u | bal
        · simp [RegisterAndStakeReputerIdempotently, h1, h2]
        · rcases h3 : ro.getParams with u | pv
          · simp [RegisterAndStakeReputerIdempotently, h1, h2, h3]
          · by_cases hfee : pv.RegistrationFee ≤ bal
            · rcases h4 : ro.sendRegister with u | rv
              · simp [RegisterAndStakeReputerIdempotently, h1, h2, h3, h4, hfee]
              · rcases h5 : ro.isReputerRegistered2 with u | b2
                · simp [RegisterAndStakeReputerIdempotently, h1, h2, h3, h4, h5, hfee]
                · rcases b2 with _ | _
                  · simp [RegisterAndStakeReputerIdempotently, h1, h2, h3, h4, h5,
                      hfee]
                  · have hred : RegisterAndStakeReputerIdempotently node ro rc =
                        reputerStakePhase node ro rc
                          ([Event.readIsReputerRegistered rc.TopicId (.ok false)] ++
                           [Event.readBalance (.ok bal)] ++
                           [Event.readParams (.ok pv)] ++
                           [Event.submitRegister node.Chain.Address rc.TopicId
                             node.Chain.Address true (.ok rv)] ++
                           [Event.readIsReputerRegistered rc.TopicId (.ok true)]) := by
                      simp [RegisterAndStakeReputerIdempotently, h1, h2, h3, h4, h5,
                        hfee]
                    rw [hred]
                    exact reputerStakePhase_lastConfirm node ro rc _
            · simp [RegisterAndStakeReputerIdempotently, h1, h2, h3, hfee]
      · have hred : RegisterAndStakeReputerIdempotently node ro rc =
            reputerStakePhase node ro rc
              [Event.readIsReputerRegistered rc.TopicId (.ok true)] := by
          simp [RegisterAndStakeReputerIdempotently, h1]
        rw [hred]
        exact reputerStakePhase_lastConfirm node ro rc _

/-- C8 witness: the theorem applied at a worker oracle converging via the
post-submit re-read and a reputer oracle converging via the post-submit stake
re-read. -/
theorem C8_fresh_read_convergence_witness :
    lastConfirm confirmsWorkerRegistered
      (RegisterWorkerIdempotently nodeA woSubmitOk wc1).2 = true ∧
    lastConfirm (confirmsStakeAtLeast rc1.MinStake)
      (RegisterAndStakeReputerIdempotently nodeA roStakeOk rc1).2 = true :=
  ⟨(C8_fresh_read_convergence nodeA woSubmitOk wc1 roStakeOk rc1).1 (by decide),
   (C8_fresh_read_convergence nodeA woSubmitOk wc1 roStakeOk rc1).2 (by decide)⟩

/-- If the stake phase starts from a trace with no failed read and some read of its
own fails, it returns false. -/
theorem reputerStakePhase_failedRead (node : NodeConfig) (o : ReputerOracle)
    (c : ReputerConfig) (t : List Event) (ht : hasFailedRead t = false) :
    hasFailedRead (reputerStakePhase node o c t).2 = true →
    (reputerStakePhase node o c t).1 = false := by
  rcases h1 : o.getStake1 with u | s
  · simp [reputerStakePhase, h1]
  · by_cases hle : c.MinStake ≤ s
    · have hall : hasFailedRead (t ++
          [Event.readStake c.TopicId node.Chain.Address (.ok s)]) = false := by
        simp [hasFailedRead, List.any_append, Event.isFailedRead] at ht ⊢
        exact ht
      simp [reputerStakePhase, h1, hle, hall]
    · rcases h2 : o.sendAddStake with u | r
      · simp [reputerStakePhase, h1, hle, h2]
      · rcases h3 : o.getStake2 with u | s2
        · simp [reputerStakePhase, h1, hle, h2, h3]
        · by_cases hlt : s2 < c.MinStake
          · simp [reputerStakePhase, h1, hle, h2, h3, hlt]
          · have hall : hasFailedRead (t ++
                [Event.readStake c.TopicId node.Chain.Address (.ok s),
                 Event.submitAddStake node.Wallet.Address (c.MinStake - s)
                   c.TopicId (.ok r),
                 Event.readStake c.TopicId node.Chain.Address (.ok s2)]) = false := by
              simp [hasFailedRead, List.any_append, Event.isFailedRead] at ht ⊢
              exact ht
            simp [reputerStakePhase, h1, hle, h2, h3, hlt, hall]

/-- C9: every failing ledger read observed during a call makes that call return
false; and a failure of the initial registration-status read on either path returns
false with no write submitted in that call. -/
theorem C9_read_failure_returns_false (node : NodeConfig) (wo : WorkerOracle)
    (wc : WorkerConfig) (ro : ReputerOracle) (rc : ReputerConfig) :
    (hasFailedRead (RegisterWorkerIdempotently node wo wc).2 = true →
      (RegisterWorkerIdempotently node wo wc).1 = false) ∧
    (hasFailedRead (RegisterAndStakeReputerIdempotently node ro rc).2 = true →
      (RegisterAndStakeReputerIdempotently node ro rc).1 = false) ∧
    (wo.isWorkerRegistered1 = .error () →
      (RegisterWorkerIdempotently node wo wc).1 = false ∧
      writeEvents (RegisterWorkerIdempotently node wo wc).2 = []) ∧
    (ro.isReputerRegistered1 = .error () →
      (RegisterAndStakeReputerIdempotently node ro rc).1 = false ∧
      writeEvents (RegisterAndStakeReputerIdempotently node ro rc).2 = []) := by
  refine ⟨?_, ?_, ?_, ?_⟩
  · rcases h1 : wo.isWorkerRegistered1 with u | b1
    · simp [RegisterWorkerIdempotently, h1]
    · rcases b1 with _ | _
      · rcases h2 : wo.getParams with u | pv
        · simp [RegisterWorkerIdempotently, h1, h2]
        · rcases h3 : wo.getBalance with u | bal
          · simp [RegisterWorkerIdempotently, h1, h2, h3]
          · by_cases hfee : pv.RegistrationFee ≤ bal
            · rcases h4 : wo.sendRegister with u | rv
              · simp [RegisterWorkerIdempotently, h1, h2, h3, h4, hfee]
              · rcases h5 : wo.isWorkerRegistered2 with u | b2
                · simp [RegisterWorkerIdempotently, h1, h2, h3, h4, h5, hfee]
                · rcases b2 with _ | _
                  · simp [RegisterWorkerIdempotently, h1, h2, h3, h4, h5, hfee]
                  · simp [RegisterWorkerIdempotently, h1, h2, h3, h4, h5, hfee,
                      hasFailedRead, Event.isFailedRead]
            · simp [RegisterWorkerIdempotently, h1, h2, h3, hfee]
      · simp [RegisterWorkerIdempotently, h1, hasFailedRead, Event.isFailedRead]
  · rcases h1 : ro.isReputerRegistered1 with u | b1
    · simp [RegisterAndStakeReputerIdempotently, h1]
    · rcases b1 with _ | _
      · rcases h2 : ro.getBalance with u | bal
        · simp [RegisterAndStakeReputerIdempotently, h1, h2]
        · rcases h3 : ro.getParams with u | pv
          · simp [RegisterAndStakeReputerIdempotently, h1, h2, h3]
          · by_cases hfee : pv.RegistrationFee ≤ bal
            · rcases h4 : ro.sendRegister with u | rv
              · simp [RegisterAndStakeReputerIdempotently, h1, h2, h3, h4, hfee]
              · rcases h5 : ro.isReputerRegistered2 with u | b2
                · simp [RegisterAndStakeReputerIdempotently, h1, h2, h3, h4, h5, hfee]
                · rcases b2 with _ | _
                  · simp [RegisterAndStakeReputerIdempotently, h1, h2, h3, h4, h5,
                      hfee]
                  · have hred : RegisterAndStakeReputerIdempotently node ro rc =
                        reputerStakePhase node ro rc
                          ([Event.readIsReputerRegistered rc.TopicId (.ok false)] ++
                           [Event.readBalance (.ok bal)] ++
                           [Event.readParams (.ok pv)] ++
                           [Event.submitRegister node.Chain.Address rc.TopicId
                             node.Chain.Address true (.ok rv)] ++
                           [Event.readIsReputerRegistered rc.TopicId (.ok true)]) := by
                      simp [RegisterAndStakeReputerIdempotently, h1, h2, h3, h4, h5,
                        hfee]
                    rw [hred]
                    exact reputerStakePhase_failedRead node ro rc _
                      (by simp [hasFailedRead, Event.isFailedRead])
            · simp [RegisterAndStakeReputerIdempotently, h1, h2, h3, hfee]
      · have hred : RegisterAndStakeReputerIdempotently node ro rc =
            reputerStakePhase node ro rc
              [Event.readIsReputerRegistered rc.TopicId (.ok true)] := by
          simp [RegisterAndStakeReputerIdempotently, h1]
        rw [hred]
        exact reputerStakePhase_failedRead node ro rc _
          (by simp [hasFailedRead, Event.isFailedRead])
  · intro h1
    simp [RegisterWorkerIdempotently, h1, writeEvents, Event.isWrite]
  · intro h1
    simp [RegisterAndStakeReputerIdempotently, h1, writeEvents, Event.isWrite]

/-- C9 witness: oracles whose initial registration-status read fails — both entry
points return false with empty write traces, via both the failed-read and the
initial-read conjuncts of the theorem. -/
theorem C9_read_failure_returns_false_witness :
    ((RegisterWorkerIdempotently nodeA woReadFail wc1).1 = false ∧
     writeEvents (RegisterWorkerIdempotently nodeA woReadFail wc1).2 = []) ∧
    ((RegisterAndStakeReputerIdempotently nodeA roReadFail rc1).1 = false ∧
     writeEvents (RegisterAndStakeReputerIdempotently nodeA roReadFail rc1).2 = []) ∧
    (RegisterWorkerIdempotently nodeA woReadFail wc1).1 = false ∧
    (RegisterAndStakeReputerIdempotently nodeA roReadFail rc1).1 = false :=
  ⟨(C9_read_failure_returns_false nodeA woReadFail wc1 roReadFail rc1).2.2.1 rfl,
   (C9_read_failure_returns_false nodeA woReadFail wc1 roReadFail rc1).2.2.2 rfl,
   (C9_read_failure_returns_false nodeA woReadFail wc1 roReadFail rc1).1 (by decide),
   (C9_read_failure_returns_false nodeA woReadFail wc1 roReadFail rc1).2.1 (by decide)⟩

/-- The stake phase first appends the initial stake read, then possibly more. -/
theorem reputerStakePhase_extends2 (node : NodeConfig) (o : ReputerOracle)
    (c : ReputerConfig) (t : List Event) :
    ∃ extra : List Event, (reputerStakePhase node o c t).2 =
      (t ++ [Event.readStake c.TopicId node.Chain.Address o.getStake1]) ++ extra := by
  rcases h1 : o.getStake1 with u | s
  · exact ⟨[], by simp [reputerStakePhase, h1]⟩
  · by_cases hle : c.MinStake ≤ s
    · exact ⟨[], by simp [reputerStakePhase, h1, hle]⟩
    · rcases h2 : o.sendAddStake with u | r
      · exact ⟨[Event.submitAddStake node.Wallet.Address (c.MinStake - s) c.TopicId
          (.error u)], by simp [reputerStakePhase, h1, hle, h2]⟩
      · rcases h3 : o.getStake2 with u | s2
        · exact ⟨[Event.submitAddStake node.Wallet.Address (c.MinStake - s) c.TopicId
            (.ok r), Event.readStake c.TopicId node.Chain.Address (.error u)],
            by simp [reputerStakePhase, h1, hle, h2, h3]⟩
        · by_cases hlt : s2 < c.MinStake
          · exact ⟨[Event.submitAddStake node.Wallet.Address (c.MinStake - s) c.TopicId
              (.ok r), Event.readStake c.TopicId node.Chain.Address (.ok s2)],
              by simp [reputerStakePhase, h1, hle, h2, h3, hlt]⟩
          · exact ⟨[Event.submitAddStake node.Wallet.Address (c.MinStake - s) c.TopicId
              (.ok r), Event.readStake c.TopicId node.Chain.Address (.ok s2)],
              by simp [reputerStakePhase, h1, hle, h2, h3, hlt]⟩

/-- C10: when the initial read reports the identity already registered, the worker
path returns true with a trace of exactly that one read (no balance or params read),
and the reputer path performs no balance or params read and proceeds directly to the
stake phase (its trace starts with the registration read followed immediately by the
stake read); moreover, on either path, a balance or params read ever occurring forces
the initial registration read to have reported unregistered. -/
theorem C10_steady_state_frame (node : NodeConfig) (wo : WorkerOracle)
    (wc : WorkerConfig) (ro : ReputerOracle) (rc : ReputerConfig)
    (hw : wo.isWorkerRegistered1 = .ok true)
    (hr : ro.isReputerRegistered1 = .ok true) :
    (RegisterWorkerIdempotently node wo wc).2 =
      [Event.readIsWorkerRegistered wc.TopicId (.ok true)] ∧
    (RegisterWorkerIdempotently node wo wc).1 = true ∧
    balanceOrParamsReads (RegisterAndStakeReputerIdempotently node ro rc).2 = [] ∧
    (∃ rest : List Event, (RegisterAndStakeReputerIdempotently node ro rc).2 =
      Event.readIsReputerRegistered rc.TopicId (.ok true) ::
        Event.readStake rc.TopicId node.Chain.Address ro.getStake1 :: rest) ∧
    (∀ wo' : WorkerOracle,
      balanceOrParamsReads (RegisterWorkerIdempotently node wo' wc).2 ≠ [] →
        wo'.isWorkerRegistered1 = .ok false) ∧
    (∀ ro' : ReputerOracle,
      balanceOrParamsReads (RegisterAndStakeReputerIdempotently node ro' rc).2 ≠ [] →
        ro'.isReputerRegistered1 = .ok false) := by
  have hred : RegisterAndStakeReputerIdempotently node ro rc =
      reputerStakePhase node ro rc
        [Event.readIsReputerRegistered rc.TopicId (.ok true)] := by
    simp [RegisterAndStakeReputerIdempotently, hr]
  refine ⟨?_, ?_, ?_, ?_, ?_, ?_⟩
  · simp [RegisterWorkerIdempotently, hw]
  · simp [RegisterWorkerIdempotently, hw]
  · rw [hred, reputerStakePhase_balanceOrParamsReads]
    simp [balanceOrParamsReads, Event.isBalanceOrParamsRead]
  · obtain ⟨extra, hx⟩ := reputerStakePhase_extends2 node ro rc
      [Event.readIsReputerRegistered rc.TopicId (.ok true)]
    refine ⟨extra, ?_⟩
    rw [hred, hx]
    simp
  · intro wo' hbp
    rcases h1 : wo'.isWorkerRegistered1 with u | b1
    · exact absurd (by simp [RegisterWorkerIdempotently, h1, balanceOrParamsReads,
        Event.isBalanceOrParamsRead]) hbp
    · rcases b1 with _ | _
      · rfl
      · exact absurd (by simp [RegisterWorkerIdempotently, h1, balanceOrParamsReads,
          Event.isBalanceOrParamsRead]) hbp
  · intro ro' hbp
    rcases h1 : ro'.isReputerRegistered1 with u | b1
    · exact absurd (by simp [RegisterAndStakeReputerIdempotently, h1,
        balanceOrParamsReads, Event.isBalanceOrParamsRead]) hbp
    · rcases b1 with _ | _
      · rfl
      · refine absurd ?_ hbp
        have hred2 : RegisterAndStakeReputerIdempotently node ro' rc =
            reputerStakePhase node ro' rc
              [Event.readIsReputerRegistered rc.TopicId (.ok true)] := by
          simp [RegisterAndStakeReputerIdempotently, h1]
        rw [hred2, reputerStakePhase_balanceOrParamsReads]
        simp [balanceOrParamsReads, Event.isBalanceOrParamsRead]

/-- C10 witness: an already-registered worker oracle and an already-registered
reputer oracle with ample stake — one-read worker trace and no balance or params
read on the reputer path. -/
theorem C10_steady_state_frame_witness :
    (RegisterWorkerIdempotently nodeA woRegistered wc1).2 =
      [Event.readIsWorkerRegistered wc1.TopicId (.ok true)] ∧
    balanceOrParamsReads
      (RegisterAndStakeReputerIdempotently nodeA roStakeHigh rc1).2 = [] :=
  ⟨(C10_steady_state_frame nodeA woRegistered wc1 roStakeHigh rc1 rfl rfl).1,
   (C10_steady_state_frame nodeA woRegistered wc1 roStakeHigh rc1 rfl rfl).2.2.1⟩

end AlloraOffchain
